import Mathlib

/-!
Verification of the NexTrust SDK policy-evaluation and scoring engine.

The definitions below are a shallow embedding of the backend rule engine
(`RuleEngine` in `src/backend/services/rule-engine.js`) and scoring service
(`ScoringService` in `src/backend/services/scoring.js`), together with the
shared constants (`src/shared/constants/index.js`).

Modelling conventions:
* JavaScript numbers are modelled as exact rationals (`Rat`).
* A JavaScript value that may be absent is modelled with `Option`;
  JavaScript truthiness is modelled explicitly where the source relies on it.
* Rule condition strings are modelled by the type `Cond`: either an abstract
  syntax tree `Expr` of the small expression language actually used by rule
  conditions (dotted paths of up to three segments, literals, `!`, `&&`,
  `||`, `>`, `<`, `.includes`), or `Cond.parseError` standing for any
  condition string whose rewritten source fails to compile in
  `_evaluateCondition` (invalid syntax, or a dotted path of four or more
  segments, which the guard rewrite turns into invalid code).
  The guard rewrite `(\w+\.\w+)` → `(a && a.b ? a.b : null)` applied by
  `_evaluateCondition` is baked into the evaluation of `Expr.path2` and
  `Expr.path3`: only the first two segments of a dotted path are guarded.
-/

namespace NexTrust

/-- A JavaScript value as it appears in a verification context. -/
inductive JsVal where
  | undefined
  | null
  | bool (b : Bool)
  | num (q : Rat)
  | str (s : String)
  | obj (fields : List (String × JsVal))

/-- JavaScript truthiness (`Boolean(v)`).  `NaN` is not representable in the
rational model; every represented number other than `0` is truthy. -/
def truthy : JsVal → Bool
  | .undefined => false
  | .null => false
  | .bool b => b
  | .num q => q != 0
  | .str s => s != ""
  | .obj _ => true

/-- JavaScript `a || b` specialised to picking a default object:
returns `v` when truthy, otherwise the default `w`
(as in `data.fingerprint || {}` in `_createSafeContext`). -/
def jsOr (v w : JsVal) : JsVal :=
  if truthy v then v else w

/-- Property read `v.p`.  Reading a property of `null` or `undefined` throws a
`TypeError`; an object yields the field value or `undefined`; a string exposes
`length`; other primitives yield `undefined`. -/
def propGet : JsVal → String → Except String JsVal
  | .undefined, _ => .error "TypeError"
  | .null, _ => .error "TypeError"
  | .obj fields, p => .ok ((fields.lookup p).getD .undefined)
  | .str s, p => .ok (if p == "length" then .num (s.length : Rat) else .undefined)
  | .num _, _ => .ok .undefined
  | .bool _, _ => .ok .undefined

/-- The `ToNumber` coercion used by JavaScript relational operators.  `none`
models `NaN`.  Strings that spell a natural number convert to it, the empty
string converts to `0`; other strings are treated as `NaN` (fractional or
signed numeric strings do not occur in the modelled rule language). -/
def toNumber : JsVal → Option Rat
  | .undefined => none
  | .null => some 0
  | .bool b => some (if b then 1 else 0)
  | .num q => some q
  | .str s =>
    if s == "" then some 0
    else match s.toNat? with
      | some n => some (n : Rat)
      | none => none
  | .obj _ => none

/-- JavaScript `a < b`: lexicographic for two strings, otherwise numeric with
any `NaN` operand making the comparison false. -/
def jsLtVal (va vb : JsVal) : Bool :=
  match va, vb with
  | .str s1, .str s2 => decide (s1 < s2)
  | _, _ =>
    match toNumber va, toNumber vb with
    | some x, some y => decide (x < y)
    | _, _ => false

/-- Substring containment, as `String.prototype.includes`. -/
def strIncludes (s pat : String) : Bool :=
  (List.range (s.length + 1)).any (fun i => ((s.drop i).take pat.length) == pat)

/-- The safe evaluation context built by `RuleEngine._createSafeContext`:
the three data sections default to `{}` when absent, while `sessionId` and
`timestamp` are passed through unchanged. -/
structure SafeContext where
  fingerprint : JsVal
  behavioral : JsVal
  facial : JsVal
  sessionId : JsVal
  timestamp : JsVal

/-- The raw verification data handed to `evaluateRules`; every section may be
absent (`undefined`). -/
structure DataIn where
  fingerprint : JsVal := .undefined
  behavioral : JsVal := .undefined
  facial : JsVal := .undefined
  sessionId : JsVal := .undefined
  timestamp : JsVal := .undefined

/-- Embedding of `RuleEngine._createSafeContext`. -/
def createSafeContext (data : DataIn) : SafeContext :=
  { fingerprint := jsOr data.fingerprint (.obj [])
    behavioral := jsOr data.behavioral (.obj [])
    facial := jsOr data.facial (.obj [])
    sessionId := data.sessionId
    timestamp := data.timestamp }

/-- Identifier lookup in the destructured evaluation scope
(`const { fingerprint, behavioral, facial, sessionId, timestamp } = context`);
any other identifier raises a `ReferenceError` at run time. -/
def ctxGet (c : SafeContext) : String → Except String JsVal
  | "fingerprint" => .ok c.fingerprint
  | "behavioral" => .ok c.behavioral
  | "facial" => .ok c.facial
  | "sessionId" => .ok c.sessionId
  | "timestamp" => .ok c.timestamp
  | n => .error ("ReferenceError: " ++ n ++ " is not defined")

/-- Expressions of the condition language (after the guard rewrite applied by
`_evaluateCondition`).  `litNull` stands for a fractional numeric literal
such as `0.5`, which the guard rewrite turns into `(0 && 0.5 ? 0.5 : null)`,
a constant `null`. -/
inductive Expr where
  | litNum (q : Rat)
  | litStr (s : String)
  | litBool (b : Bool)
  | litNull
  | path1 (a : String)
  | path2 (a b : String)
  | path3 (a b c : String)
  | neg (e : Expr)
  | conj (e1 e2 : Expr)
  | disj (e1 e2 : Expr)
  | gt (e1 e2 : Expr)
  | lt (e1 e2 : Expr)
  | includes (e : Expr) (pat : String)
deriving DecidableEq

/-- A rule condition string: either it parses to an expression, or the
rewritten source fails to compile (`new Function` throws a `SyntaxError`). -/
inductive Cond where
  | parseError
  | expr (e : Expr)
deriving DecidableEq

/-- Evaluation of the guarded two-segment path `(a && a.b ? a.b : null)`
produced by the rewrite in `_evaluateCondition`. -/
def evalPath2 (c : SafeContext) (a b : String) : Except String JsVal :=
  match ctxGet c a with
  | .error e => .error e
  | .ok va =>
    if truthy va then
      match propGet va b with
      | .error e => .error e
      | .ok vb => .ok (if truthy vb then vb else .null)
    else .ok .null

/-- Evaluation of a rewritten condition expression.  `Except.error` models an
exception (`TypeError`, `ReferenceError`) escaping to the `catch` in
`_evaluateCondition`. -/
def evalExpr (c : SafeContext) : Expr → Except String JsVal
  | .litNum q => .ok (.num q)
  | .litStr s => .ok (.str s)
  | .litBool b => .ok (.bool b)
  | .litNull => .ok .null
  | .path1 a => ctxGet c a
  | .path2 a b => evalPath2 c a b
  | .path3 a b f =>
    match evalPath2 c a b with
    | .error e => .error e
    | .ok v => propGet v f
  | .neg e =>
    match evalExpr c e with
    | .error msg => .error msg
    | .ok v => .ok (.bool (!truthy v))
  | .conj e1 e2 =>
    match evalExpr c e1 with
    | .error msg => .error msg
    | .ok v1 => if truthy v1 then evalExpr c e2 else .ok v1
  | .disj e1 e2 =>
    match evalExpr c e1 with
    | .error msg => .error msg
    | .ok v1 => if truthy v1 then .ok v1 else evalExpr c e2
  | .gt e1 e2 =>
    match evalExpr c e1 with
    | .error msg => .error msg
    | .ok v1 =>
      match evalExpr c e2 with
      | .error msg => .error msg
      | .ok v2 => .ok (.bool (jsLtVal v2 v1))
  | .lt e1 e2 =>
    match evalExpr c e1 with
    | .error msg => .error msg
    | .ok v1 =>
      match evalExpr c e2 with
      | .error msg => .error msg
      | .ok v2 => .ok (.bool (jsLtVal v1 v2))
  | .includes e pat =>
    match evalExpr c e with
    | .error msg => .error msg
    | .ok v =>
      match v with
      | .str s => .ok (.bool (strIncludes s pat))
      | _ => .error "TypeError: includes is not a function"

/-- Embedding of `RuleEngine._evaluateCondition`: a compile failure of the rewritten
source, or any exception during evaluation, is caught and yields `false`;
otherwise the result is coerced with `Boolean`. -/
def evaluateCondition (cond : Cond) (context : SafeContext) : Bool :=
  match cond with
  | .parseError => false
  | .expr e =>
    match evalExpr context e with
    | .ok v => truthy v
    | .error _ => false

/-- A rule record as loaded from configuration or injected at run time.
Missing string fields are modelled by `""` (both falsy in the source's
checks); a missing or empty condition string is `condition = none` (an empty
condition string and a missing one both fail the falsy validation check and
both evaluate to `false`); a missing or non-numeric weight is `weight = none`. -/
structure Rule where
  id : String := ""
  name : String := ""
  condition : Option Cond := none
  weight : Option Rat := none
  action : String := ""
  enabled : Option Bool := none
  description : Option String := none
  temporary : Bool := false
deriving DecidableEq

/-- The result record built by `_evaluateRule` (and by the error branch of
`evaluateRules`, which is unreachable for well-formed data, see
`evaluateRules`). -/
structure RuleResult where
  id : String := ""
  name : String := ""
  passed : Bool := false
  weight : Rat := 0
  score : Rat := 0
  action : Option String := none
  condition : Option Cond := none
  description : Option String := none
  error : Option String := none
deriving DecidableEq

/-- Truthiness of the `weight` field in the falsy check
`!rule.id || !rule.name || !rule.condition || !rule.weight || !rule.action`:
a missing weight and the number `0` are both falsy. -/
def weightTruthy : Option Rat → Bool
  | some q => q != 0
  | none => false

/-- The per-rule structural check shared by `_validateRules` and
`addTemporaryRule`: the falsy test on `id`, `name`, `condition`, `weight`
and `action`.  ( `_validateRules` adds the enum and `typeof` checks, see
`validRule`.) -/
def ruleFieldsTruthy (rule : Rule) : Bool :=
  rule.id != "" && rule.name != "" && rule.condition.isSome &&
    weightTruthy rule.weight && rule.action != ""

/-- One iteration of `RuleEngine._validateRules`: the falsy check, the action
enum check, and the `typeof rule.weight === "number"` check. -/
def validRule (rule : Rule) : Bool :=
  ruleFieldsTruthy rule &&
    (rule.action == "allow" || rule.action == "review" || rule.action == "deny") &&
    rule.weight.isSome

/-- Embedding of `RuleEngine._validateRules`: it succeeds (does not throw) iff every rule in
the batch passes `validRule`. -/
def validateRules (rules : List Rule) : Bool :=
  rules.all validRule

/-- Embedding of `RuleEngine._evaluateRule`.  `_evaluateCondition` catches every exception
internally and returns a boolean, so this function never throws for
structured data and the built result never carries an `error` field. -/
def evalRule (data : DataIn) (rule : Rule) : RuleResult :=
  let context := createSafeContext data
  let passed := evaluateCondition (rule.condition.getD .parseError) context
  { id := rule.id
    name := rule.name
    passed := passed
    weight := rule.weight.getD 0
    score := if passed then rule.weight.getD 0 else 0
    action := some rule.action
    condition := rule.condition
    description := rule.description
    error := none }

/-- Embedding of `RuleEngine.evaluateRules`: skips rules whose `enabled` field is not
truthy and evaluates the rest in order.  The `catch` branch that would push
a result with `error` set is dead code here: `_evaluateRule` only throws when
`data` itself is `null`/`undefined`, which a structured `DataIn` excludes. -/
def evaluateRules (data : DataIn) (rules : List Rule) : List RuleResult :=
  (rules.filter (fun r => r.enabled == some true)).map (evalRule data)

/-- The rule engine's threshold record (`{allow, review, deny}`). -/
structure EThresholds where
  allow : Rat
  review : Rat
  deny : Rat
deriving DecidableEq

/-- The mutable state of a `RuleEngine` (its `rules`, `thresholds` and
`lastLoaded` fields; `rulesPath` is I/O configuration and constant). -/
structure EngineState where
  rules : List Rule
  thresholds : EThresholds
  lastLoaded : Option Rat
deriving DecidableEq

/-- The state set up by the `RuleEngine` constructor. -/
def engineInit : EngineState :=
  { rules := [], thresholds := { allow := 80, review := 50, deny := 0 }, lastLoaded := none }

/-- The built-in default thresholds installed by `_loadDefaultRules`. -/
def defaultThresholds : EThresholds :=
  { allow := 80, review := 50, deny := 0 }

/-- The built-in default rule set installed by `_loadDefaultRules`.
Conditions are the ASTs of the condition strings after the guard rewrite;
the literal `0.5` in `high_behavioral_frequency` is rewritten by
`_evaluateCondition` into `(0 && 0.5 ? 0.5 : null)`, i.e. the constant
`null`, hence `Expr.litNull`. -/
def defaultRules : List Rule :=
  [ { id := "fingerprint_completeness", name := "Fingerprint Completeness"
      condition := some (.expr (.conj (.conj (.path2 "fingerprint" "userAgent")
        (.path2 "fingerprint" "canvasFingerprint")) (.path2 "fingerprint" "webglFingerprint")))
      weight := some 20, action := "allow", enabled := some true
      description := some "Verifica se o fingerprint esta completo" },
    { id := "behavioral_activity", name := "Behavioral Activity"
      condition := some (.expr (.conj (.path1 "behavioral")
        (.gt (.path2 "behavioral" "totalEvents") (.litNum 5))))
      weight := some 15, action := "allow", enabled := some true
      description := some "Verifica se ha atividade comportamental suficiente" },
    { id := "session_duration", name := "Session Duration"
      condition := some (.expr (.conj (.path1 "behavioral")
        (.gt (.path2 "behavioral" "duration") (.litNum 30000))))
      weight := some 10, action := "allow", enabled := some true
      description := some "Verifica se a sessao tem duracao minima" },
    { id := "suspicious_user_agent", name := "Suspicious User Agent"
      condition := some (.expr (.disj (.includes (.path2 "fingerprint" "userAgent") "bot")
        (.includes (.path2 "fingerprint" "userAgent") "crawler")))
      weight := some (-30), action := "deny", enabled := some true
      description := some "Detecta user agents suspeitos" },
    { id := "missing_fingerprint", name := "Missing Fingerprint"
      condition := some (.expr (.disj (.neg (.path1 "fingerprint"))
        (.neg (.path2 "fingerprint" "userAgent"))))
      weight := some (-50), action := "deny", enabled := some true
      description := some "Detecta ausencia de fingerprint" },
    { id := "facial_verification", name := "Facial Verification"
      condition := some (.expr (.conj (.conj (.path1 "facial")
        (.path2 "facial" "imageData")) (.neg (.path2 "facial" "error"))))
      weight := some 25, action := "allow", enabled := some true
      description := some "Bonus por verificacao facial bem-sucedida" },
    { id := "high_behavioral_frequency", name := "High Behavioral Frequency"
      condition := some (.expr (.conj (.path1 "behavioral")
        (.gt (.path3 "behavioral" "metrics" "clickFrequency") .litNull)))
      weight := some (-10), action := "review", enabled := some true
      description := some "Detecta atividade comportamental anormalmente alta" },
    { id := "canvas_fingerprint_consistency", name := "Canvas Fingerprint Consistency"
      condition := some (.expr (.conj (.path2 "fingerprint" "canvasFingerprint")
        (.gt (.path3 "fingerprint" "canvasFingerprint" "length") (.litNum 100))))
      weight := some 10, action := "allow", enabled := some true
      description := some "Verifica consistencia do canvas fingerprint" } ]

/-- The outcome of the `fs.readFile` + `JSON.parse` step of `loadRules`:
either the read/parse throws, or it yields a configuration object whose
`rules` and `thresholds` keys may each be absent. -/
inductive LoadInput where
  | readError
  | config (rules : Option (List Rule)) (thresholds : Option EThresholds)

/-- Embedding of `RuleEngine.loadRules`, as a state transformer over the read outcome.
On a read error nothing has been assigned yet, so the `catch` installs the
defaults and `lastLoaded` keeps its old value.  On a successful read the code
assigns `rules`, `thresholds` and `lastLoaded` first and only then validates;
a validation failure is caught and `_loadDefaultRules` overwrites `rules` and
`thresholds` with the built-in defaults (the already-updated `lastLoaded`
survives).  In no case does `loadRules` reject or keep the previous rules. -/
def loadRules (st : EngineState) (now : Rat) (input : LoadInput) : EngineState :=
  match input with
  | .readError =>
    { rules := defaultRules, thresholds := defaultThresholds, lastLoaded := st.lastLoaded }
  | .config rs ths =>
    let loadedRules := rs.getD []
    let loadedThresholds := ths.getD st.thresholds
    if validateRules loadedRules then
      { rules := loadedRules, thresholds := loadedThresholds, lastLoaded := some now }
    else
      { rules := defaultRules, thresholds := defaultThresholds, lastLoaded := some now }

/-- Embedding of `RuleEngine.addTemporaryRule`: the falsy structural check, then the
duplicate-id check, then append with `enabled = (rule.enabled !== false)` and
`temporary = true`.  Note the action enum and `typeof` weight checks of
`_validateRules` are not performed here. -/
def addTemporaryRule (st : EngineState) (rule : Rule) : Except String EngineState :=
  if !ruleFieldsTruthy rule then
    .error "Invalid rule structure"
  else if (st.rules.find? (fun r => r.id == rule.id)).isSome then
    .error ("Rule with ID " ++ rule.id ++ " already exists")
  else
    .ok { st with rules :=
      st.rules ++ [{ rule with enabled := some (rule.enabled != some false), temporary := true }] }

/-- Embedding of `RuleEngine.getActiveRules`. -/
def getActiveRules (st : EngineState) : List Rule :=
  st.rules.filter (fun r => r.enabled == some true)

/-- A thresholds object as seen by the `ScoringService`: a JavaScript object
that may carry lowercase keys (`allow`, `review`, `deny`, which
`getDecision` reads) and/or uppercase keys (`ALLOW`, `REVIEW`, `DENY`, which
`DEFAULT_THRESHOLDS` in `src/shared/constants/index.js` provides).  `none`
models an absent key. -/
structure SThresholds where
  allow : Option Rat := none
  review : Option Rat := none
  deny : Option Rat := none
  ALLOW : Option Rat := none
  REVIEW : Option Rat := none
  DENY : Option Rat := none
deriving DecidableEq

/-- The constant `DEFAULT_THRESHOLDS` from `src/shared/constants/index.js`: its keys are
the uppercase `ALLOW`/`REVIEW`/`DENY`; it has no lowercase keys. -/
def DEFAULT_THRESHOLDS : SThresholds :=
  { ALLOW := some 80, REVIEW := some 50, DENY := some 0 }

/-- The `thresholds` field set by the `ScoringService` constructor. -/
def scoringInitThresholds : SThresholds :=
  DEFAULT_THRESHOLDS

/-- JavaScript `score >= threshold` where the threshold read may be
`undefined`: any comparison with `undefined` is false. -/
def jsGE (score : Rat) : Option Rat → Bool
  | some t => decide (score ≥ t)
  | none => false

/-- Embedding of `ScoringService.getDecision`: reads the lowercase `allow` and `review`
keys of the service's thresholds. -/
def getDecision (th : SThresholds) (score : Rat) : String :=
  if jsGE score th.allow then "allow"
  else if jsGE score th.review then "review"
  else "deny"

/-- Embedding of `ScoringService.updateThresholds`: the object spread
`{...this.thresholds, ...newThresholds}` — a key present in the update wins,
an absent key keeps the old value. -/
def updateThresholds (old new : SThresholds) : SThresholds :=
  { allow := new.allow <|> old.allow
    review := new.review <|> old.review
    deny := new.deny <|> old.deny
    ALLOW := new.ALLOW <|> old.ALLOW
    REVIEW := new.REVIEW <|> old.REVIEW
    DENY := new.DENY <|> old.DENY }

/-- Truthiness of a `RuleResult.error` field (`if (result.error)`). -/
def errTruthy : Option String → Bool
  | some s => s != ""
  | none => false

/-- The clamp `Math.max(0, Math.min(100, x))`. -/
def clamp100 (x : Rat) : Rat :=
  max 0 (min 100 x)

/-- Embedding of `ScoringService._calculateRuleScore`: the accumulation loop over the
result list, skipping results whose `error` field is truthy. -/
def calculateRuleScore (ruleResults : List RuleResult) : Rat :=
  if ruleResults.isEmpty then 50
  else
    let acc := ruleResults.foldl
      (fun (acc : Rat × Rat) result =>
        if errTruthy result.error then acc
        else (acc.1 + result.score, acc.2 + |result.weight|))
      (0, 0)
    if acc.2 = 0 then 50
    else clamp100 ((acc.1 / acc.2 + 1) * 50)

/-- The behavioral metrics sub-object read by `_calculateBehavioralScore`. -/
structure BehavioralMetrics where
  clickFrequency : Option Rat := none
  scrollFrequency : Option Rat := none
  keystrokeFrequency : Option Rat := none
  mouseMovementDistance : Option Rat := none
deriving DecidableEq

/-- The behavioral section as read by the scoring service. -/
structure BehavioralData where
  duration : Option Rat := none
  totalEvents : Option Rat := none
  metrics : Option BehavioralMetrics := none
  startTime : Option Rat := none
deriving DecidableEq

/-- Embedding of `ScoringService._calculateBehavioralScore`.  `x || 0` on a numeric field
is `Option.getD 0` (the falsy number `0` defaults to `0` as well). -/
def calculateBehavioralScore : Option BehavioralData → Rat
  | none => 30
  | some b =>
    let score : Rat := 50
    let duration := b.duration.getD 0
    let score := if duration > 60000 then score + 10
      else if duration < 10000 then score - 20 else score
    let eventCount := b.totalEvents.getD 0
    let score := if eventCount > 20 then score + 10
      else if eventCount < 5 then score - 15 else score
    let metrics := b.metrics.getD {}
    let clickFreq := metrics.clickFrequency.getD 0
    let score := if clickFreq > 1/10 && clickFreq < 2 then score + 5
      else if clickFreq > 5 then score - 10 else score
    let scrollFreq := metrics.scrollFrequency.getD 0
    let score := if scrollFreq > 1/20 && scrollFreq < 1 then score + 5
      else if scrollFreq > 3 then score - 10 else score
    let keystrokeFreq := metrics.keystrokeFrequency.getD 0
    let score := if keystrokeFreq > 1/10 && keystrokeFreq < 3 then score + 5
      else if keystrokeFreq > 10 then score - 15 else score
    let mouseDistance := metrics.mouseMovementDistance.getD 0
    let score := if mouseDistance > 100 then score + 5
      else if mouseDistance < 10 then score - 10 else score
    clamp100 score

/-- The fingerprint section as read by the scoring service (string fields;
`none` models an absent field). -/
structure Fingerprint where
  userAgent : Option String := none
  language : Option String := none
  platform : Option String := none
  screenResolution : Option String := none
  timezone : Option String := none
  canvasFingerprint : Option String := none
  webglFingerprint : Option String := none
  audioFingerprint : Option String := none
  fonts : Option (List String) := none
  timestamp : Option Rat := none
deriving DecidableEq

/-- The check `fingerprint[field] && fingerprint[field] !== 'unknown'` for a required
string field. -/
def fieldCounts : Option String → Bool
  | some s => s != "" && s != "unknown"
  | none => false

/-- Truthiness of an optional string field. -/
def strTruthy : Option String → Bool
  | some s => s != ""
  | none => false

/-- Embedding of `ScoringService._calculateFingerprintScore`. -/
def calculateFingerprintScore : Option Fingerprint → Rat
  | none => 0
  | some fp =>
    let score : Rat := 50
    let requiredPresent : List Bool :=
      [fieldCounts fp.userAgent, fieldCounts fp.language, fieldCounts fp.platform,
       fieldCounts fp.screenResolution, fieldCounts fp.timezone,
       fieldCounts fp.canvasFingerprint, fieldCounts fp.webglFingerprint,
       fieldCounts fp.audioFingerprint]
    let completeness : Rat := (requiredPresent.count true : Nat)
    let score := score + completeness / 8 * 30
    let score := match fp.canvasFingerprint with
      | some s => if s != "" && s.length > 100 then score + 5 else score
      | none => score
    let score := match fp.webglFingerprint with
      | some s => if s != "" && s != "webgl_not_supported" then score + 5 else score
      | none => score
    let score := match fp.audioFingerprint with
      | some s => if s != "" && s != "audio_error" then score + 5 else score
      | none => score
    let score := match fp.fonts with
      | some fonts => if fonts.length > 5 then score + 5 else score
      | none => score
    let score := match fp.userAgent with
      | some ua =>
        if ua != "" &&
            (strIncludes ua.toLower "bot" || strIncludes ua.toLower "crawler" ||
             strIncludes ua.toLower "spider" || strIncludes ua.toLower "scraper")
        then score - 30 else score
      | none => score
    clamp100 score

/-- The facial section as read by the scoring service. -/
structure FacialData where
  imageData : Option String := none
  error : Option String := none
  timestamp : Option Rat := none
deriving DecidableEq

/-- Embedding of `ScoringService._calculateFacialScore`. -/
def calculateFacialScore : Option FacialData → Rat
  | none => 50
  | some f =>
    if errTruthy f.error then 40
    else if strTruthy f.imageData then 80
    else 50

/-- The verification data as read by the scoring service.  `timestamp` is the
request timestamp consumed by the data-quality scorer. -/
structure ScoreData where
  fingerprint : Option Fingerprint := none
  behavioral : Option BehavioralData := none
  facial : Option FacialData := none
  timestamp : Rat := 0
deriving DecidableEq

/-- Truthiness of an optional numeric field (`obj.ts && ...`): the field must
be present and non-zero. -/
def numTruthy : Option Rat → Bool
  | some q => q != 0
  | none => false

/-- Embedding of `ScoringService._calculateDataQualityScore`.  `now` is the value of
`Date.now()` at the moment of the call — the one time-dependent input of the
scoring pass. -/
def calculateDataQualityScore (now : Rat) (data : ScoreData) : Rat :=
  let score : Rat := 50
  let dataAge := now - data.timestamp
  let score := if dataAge < 60000 then score + 10
    else if dataAge > 300000 then score - 20 else score
  let score := if data.fingerprint.isSome then score + 10 else score
  let score := if data.behavioral.isSome then score + 10 else score
  let score := match data.facial with
    | some f => if !errTruthy f.error then score + 10 else score
    | none => score
  let score := match data.fingerprint, data.behavioral with
    | some fp, some b =>
      if numTruthy fp.timestamp && numTruthy b.startTime then
        if |fp.timestamp.getD 0 - b.startTime.getD 0| < 300000 then score + 5 else score
      else score
    | _, _ => score
  clamp100 score

/-- Embedding of `ScoringService._combineScores` with the fixed weights 0.40, 0.25, 0.20,
0.10, 0.05.  All five sub-scores are always numbers, so every entry
contributes and the total weight is 1. -/
def combineScores (rule behavioral fingerprint facial dataQuality : Rat) : Rat :=
  let weightedScore := rule * (40/100) + behavioral * (25/100) +
    fingerprint * (20/100) + facial * (10/100) + dataQuality * (5/100)
  let totalWeight : Rat := 40/100 + 25/100 + 20/100 + 10/100 + 5/100
  if totalWeight > 0 then weightedScore / totalWeight else 50

/-- Embedding of `ScoringService._generateReasons`. -/
def generateReasons (ruleScore behavioralScore fingerprintScore facialScore
    dataQualityScore finalScore : Rat) : List String :=
  (if finalScore ≥ 80 then ["High confidence score based on comprehensive data analysis"]
   else if finalScore ≥ 60 then ["Moderate confidence score with some risk factors"]
   else if finalScore ≥ 40 then ["Low confidence score with multiple risk factors"]
   else ["Very low confidence score with significant risk factors"])
  ++ (if ruleScore < 40 then ["Multiple security rules failed"] else [])
  ++ (if behavioralScore < 40 then ["Insufficient or suspicious behavioral data"] else [])
  ++ (if fingerprintScore < 40 then ["Incomplete or suspicious device fingerprint"] else [])
  ++ (if facialScore ≥ 80 then ["Facial verification completed successfully"] else [])
  ++ (if dataQualityScore < 40 then ["Poor data quality or stale information"] else [])

/-- The five-component breakdown returned by `calculateScore`. -/
structure Breakdown where
  rule : Rat
  behavioral : Rat
  fingerprint : Rat
  facial : Rat
  dataQuality : Rat
deriving DecidableEq

/-- The value returned by `ScoringService.calculateScore`. -/
structure ScoreOutput where
  score : Rat
  reasons : List String
  breakdown : Breakdown
deriving DecidableEq

/-- Embedding of `ScoringService.calculateScore`.  `now` is `Date.now()` at call time,
consumed only by the data-quality sub-score. -/
def calculateScore (now : Rat) (data : ScoreData) (ruleResults : List RuleResult) :
    ScoreOutput :=
  let ruleScore := calculateRuleScore ruleResults
  let behavioralScore := calculateBehavioralScore data.behavioral
  let fingerprintScore := calculateFingerprintScore data.fingerprint
  let facialScore := calculateFacialScore data.facial
  let dataQualityScore := calculateDataQualityScore now data
  let finalScore := combineScores ruleScore behavioralScore fingerprintScore
    facialScore dataQualityScore
  { score := clamp100 finalScore
    reasons := generateReasons ruleScore behavioralScore fingerprintScore
      facialScore dataQualityScore finalScore
    breakdown :=
      { rule := ruleScore, behavioral := behavioralScore,
        fingerprint := fingerprintScore, facial := facialScore,
        dataQuality := dataQualityScore } }

/-! ### Spec-side helper definitions and concrete inputs -/

/-- The results that count towards the aggregate (spec §4.5: "over non-error
RuleResults"): those whose `error` field is not truthy. -/
def okResults (rs : List RuleResult) : List RuleResult :=
  rs.filter (fun r => !errTruthy r.error)

/-- Sum of `score` over the non-error results. -/
def sumOkScore (rs : List RuleResult) : Rat :=
  ((okResults rs).map (fun r => r.score)).sum

/-- Sum of `|weight|` over the non-error results. -/
def sumAbsWeight (rs : List RuleResult) : Rat :=
  ((okResults rs).map (fun r => |r.weight|)).sum

/-- A valid custom rule used to set up a prior store state. -/
def c1CustomRule : Rule :=
  { id := "custom_rule", name := "Custom Rule",
    condition := some (.expr (.litBool true)),
    weight := some 10, action := "allow", enabled := some true }

/-- A custom thresholds object distinct from the defaults. -/
def c1PriorThresholds : EThresholds :=
  { allow := 90, review := 60, deny := 10 }

/-- An invalid rule: its `name` is missing and its condition is missing. -/
def c1InvalidRule : Rule :=
  { id := "bad_rule", weight := some 10, action := "allow" }

/-- Store state after a successful load of the custom configuration. -/
def c1State1 : EngineState :=
  loadRules engineInit 1 (.config (some [c1CustomRule]) (some c1PriorThresholds))

/-- Store state after a subsequent load of a batch containing an invalid rule. -/
def c1State2 : EngineState :=
  loadRules c1State1 2 (.config (some [c1InvalidRule]) none)

/-- An enabled rule whose condition string fails to parse. -/
def c2BadRule : Rule :=
  { id := "error_rule", name := "Error Rule", condition := some .parseError,
    weight := some 10, action := "allow", enabled := some true }

/-- An empty verification data object. -/
def c2Data : DataIn := {}

/-- The result `evaluateRules` actually produces for `c2BadRule`. -/
def c2ExpectedResult : RuleResult :=
  { id := "error_rule", name := "Error Rule", passed := false, weight := 10,
    score := 0, action := some "allow", condition := some .parseError,
    description := none, error := none }

/-- A structurally valid rule accompanying the bad thresholds. -/
def c3Rule : Rule :=
  { id := "c3_ok", name := "OK Rule", condition := some (.expr (.litBool true)),
    weight := some 10, action := "allow", enabled := some true }

/-- Thresholds violating the ordering `allow ≥ review ≥ deny`. -/
def c3BadThresholds : EThresholds :=
  { allow := 0, review := 50, deny := 100 }

/-- A scoring-service thresholds object with lowercase keys `allow=80`,
`review=50`, `deny=0`. -/
def c4Thresholds : SThresholds :=
  { allow := some 80, review := some 50, deny := some 0 }

/-- An enabled rule whose condition is the bare section name `behavioral`. -/
def c7Rule : Rule :=
  { id := "bare_behavioral", name := "Bare Behavioral",
    condition := some (.expr (.path1 "behavioral")),
    weight := some 5, action := "allow", enabled := some true }

/-- A verification data object with no `behavioral` section (all sections
absent). -/
def c7Data : DataIn := {}

/-- An enabled rule whose condition places the two-segment path
`behavioral.totalEvents` under the comparison `< 5`. -/
def c7CmpRule : Rule :=
  { id := "cmp_behavioral", name := "Cmp Behavioral",
    condition := some (.expr (.lt (.path2 "behavioral" "totalEvents") (.litNum 5))),
    weight := some 5, action := "allow", enabled := some true }

/-- An enabled rule whose condition is
`!behavioral.metrics.clickFrequency || true`: if the absent three-segment
path merely made its enclosing truthiness test false, the negation and the
disjunction would make the condition true. -/
def c7DeepRule : Rule :=
  { id := "deep_behavioral", name := "Deep Behavioral",
    condition := some (.expr (.disj
      (.neg (.path3 "behavioral" "metrics" "clickFrequency")) (.litBool true))),
    weight := some 5, action := "allow", enabled := some true }

/-- A scoring data object with request timestamp `0` and no sections. -/
def c9ScoreData : ScoreData := {}

/-- A verification data object for the rule-evaluation half of C9. -/
def c9DataIn : DataIn := {}

/-- A rule with weight `0` and a fresh id, otherwise structurally valid. -/
def c10ZeroRule : Rule :=
  { id := "zero_weight", name := "Zero Weight",
    condition := some (.expr (.litBool true)),
    weight := some 0, action := "allow", enabled := some true }

/-- A rule with a negative weight and a fresh id, structurally valid. -/
def c10GoodRule : Rule :=
  { id := "neg_weight", name := "Negative Weight",
    condition := some (.expr (.litBool true)),
    weight := some (-7), action := "review", enabled := some true }

/-! ### Theorems -/

/-- C1: after a successful load of a custom rule set and custom thresholds, a
load of a batch containing an invalid rule (missing name and condition) is
not rejected and does not retain the previous state: `loadRules` silently
installs the built-in default rule set and default thresholds, replacing the
previously loaded custom state.  This contradicts the claim (and the repo's
own test, which expects `loadRules` to reject with `Invalid rule`). -/
theorem c1_failed_load_installs_defaults :
    c1State1.rules = [c1CustomRule] ∧
    c1State1.thresholds = c1PriorThresholds ∧
    validateRules [c1InvalidRule] = false ∧
    c1State2.rules = defaultRules ∧
    c1State2.thresholds = defaultThresholds ∧
    c1State2.rules ≠ c1State1.rules ∧
    c1State2.thresholds ≠ c1State1.thresholds := by
  decide

/-- C2 counterexample: an enabled rule whose condition fails to parse yields a
RuleResult whose `error` field is `none` (the `SyntaxError` thrown by
`new Function` is caught inside `_evaluateCondition` and turned into the
boolean `false`), refuting the claim that `error` is non-null. -/
theorem c2_counterexample :
    evaluateRules c2Data [c2BadRule] = [c2ExpectedResult] ∧
    c2ExpectedResult.error = none ∧
    c2ExpectedResult.passed = false ∧
    c2ExpectedResult.score = 0 := by
  exact ⟨rfl, rfl, rfl, rfl⟩

/-- C2 (amended): for every enabled rule whose condition string fails to
parse, the evaluation pass produces for that rule a RuleResult with
`passed = false`, `score = 0` and a null `error` field (the parse failure is
swallowed and treated as the condition being false), and the pass still
produces one result for every enabled rule. -/
theorem c2_parse_failure_result (data : DataIn) (rules : List Rule) (r : Rule)
    (hmem : r ∈ rules) (hen : r.enabled = some true)
    (hc : r.condition = some .parseError) :
    (evalRule data r).passed = false ∧
    (evalRule data r).score = 0 ∧
    (evalRule data r).error = none ∧
    evalRule data r ∈ evaluateRules data rules ∧
    (evaluateRules data rules).length
      = (rules.filter (fun q => q.enabled == some true)).length := by
  refine ⟨?_, ?_, rfl, ?_, ?_⟩
  · simp [evalRule, hc, evaluateCondition]
  · simp [evalRule, hc, evaluateCondition]
  · exact List.mem_map_of_mem _ (List.mem_filter.mpr ⟨hmem, by simp [hen]⟩)
  · simp [evaluateRules]

/-- Witness for `c2_parse_failure_result` at a concrete rule and context. -/
theorem c2_parse_failure_result_witness :
    (evalRule c2Data c2BadRule).passed = false ∧
    (evalRule c2Data c2BadRule).score = 0 ∧
    (evalRule c2Data c2BadRule).error = none ∧
    evalRule c2Data c2BadRule ∈ evaluateRules c2Data [c2BadRule] ∧
    (evaluateRules c2Data [c2BadRule]).length
      = ([c2BadRule].filter (fun q => q.enabled == some true)).length :=
  c2_parse_failure_result c2Data [c2BadRule] c2BadRule
    (List.mem_singleton.mpr rfl) rfl rfl

/-- C3 counterexample: a configuration whose thresholds violate
`allow ≥ review ≥ deny` is not rejected — `loadRules` installs the violating
thresholds object as the store's thresholds. -/
theorem c3_counterexample :
    (loadRules engineInit 1 (.config (some [c3Rule]) (some c3BadThresholds))).thresholds
      = c3BadThresholds ∧
    ¬ (c3BadThresholds.allow ≥ c3BadThresholds.review ∧
       c3BadThresholds.review ≥ c3BadThresholds.deny) := by
  decide

/-- C3 (amended): `loadRules` performs no threshold-ordering check at all:
whenever the accompanying rule batch passes validation, the supplied
thresholds object is installed unchanged, even when it violates
`allow ≥ review ≥ deny`. -/
theorem c3_thresholds_installed_unchecked (st : EngineState) (now : Rat)
    (rules : List Rule) (ths : EThresholds)
    (hv : validateRules rules = true) :
    (loadRules st now (.config (some rules) (some ths))).thresholds = ths ∧
    (loadRules st now (.config (some rules) (some ths))).rules = rules := by
  simp [loadRules, hv]

/-- Witness for `c3_thresholds_installed_unchecked` with order-violating
thresholds. -/
theorem c3_thresholds_installed_unchecked_witness :
    (loadRules engineInit 1 (.config (some [c3Rule]) (some c3BadThresholds))).thresholds
      = c3BadThresholds ∧
    (loadRules engineInit 1 (.config (some [c3Rule]) (some c3BadThresholds))).rules
      = [c3Rule] :=
  c3_thresholds_installed_unchecked engineInit 1 [c3Rule] c3BadThresholds (by decide)

/-- C4: when the service's thresholds carry numeric lowercase `allow` and
`review` fields, the decision is `allow` iff the score is at least
`thresholds.allow`, `review` iff it is at least `thresholds.review` but below
`thresholds.allow`, and `deny` otherwise; with `allow=80, review=50, deny=0`
a score of exactly 80 maps to `allow` and 79.999 maps to `review`. -/
theorem c4_decision_boundaries :
    (∀ (th : SThresholds) (a r s : Rat), th.allow = some a → th.review = some r →
      ((getDecision th s = "allow" ↔ s ≥ a) ∧
       (getDecision th s = "review" ↔ r ≤ s ∧ s < a) ∧
       (getDecision th s = "deny" ↔ s < a ∧ s < r))) ∧
    getDecision c4Thresholds 80 = "allow" ∧
    getDecision c4Thresholds (79999/1000) = "review" := by
  have main : ∀ (th : SThresholds) (a r s : Rat), th.allow = some a → th.review = some r →
      ((getDecision th s = "allow" ↔ s ≥ a) ∧
       (getDecision th s = "review" ↔ r ≤ s ∧ s < a) ∧
       (getDecision th s = "deny" ↔ s < a ∧ s < r)) := ?_
  · refine ⟨main, ?_, ?_⟩
    · exact ((main c4Thresholds 80 50 80 rfl rfl).1).mpr (by norm_num)
    · exact ((main c4Thresholds 80 50 (79999/1000) rfl rfl).2.1).mpr
        ⟨by norm_num, by norm_num⟩
  intro th a r s ha hr
  by_cases h1 : a ≤ s
  · have e : getDecision th s = "allow" := by
      simp [getDecision, jsGE, ha, ge_iff_le, h1]
    rw [e]
    exact ⟨⟨fun _ => h1, fun _ => rfl⟩,
      ⟨fun h => absurd h (by decide), fun hc => absurd h1 (not_le.mpr hc.2)⟩,
      ⟨fun h => absurd h (by decide), fun hc => absurd h1 (not_le.mpr hc.1)⟩⟩
  · have hlt : s < a := not_le.mp h1
    by_cases h2 : r ≤ s
    · have e : getDecision th s = "review" := by
        simp [getDecision, jsGE, ha, hr, ge_iff_le, h1, h2]
      rw [e]
      exact ⟨⟨fun h => absurd h (by decide), fun hge => absurd hge h1⟩,
        ⟨fun _ => ⟨h2, hlt⟩, fun _ => rfl⟩,
        ⟨fun h => absurd h (by decide), fun hc => absurd h2 (not_le.mpr hc.2)⟩⟩
    · have hltr : s < r := not_le.mp h2
      have e : getDecision th s = "deny" := by
        simp [getDecision, jsGE, ha, hr, ge_iff_le, h1, h2]
      rw [e]
      exact ⟨⟨fun h => absurd h (by decide), fun hge => absurd hge h1⟩,
        ⟨fun h => absurd h (by decide), fun hc => absurd hc.1 h2⟩,
        ⟨fun _ => ⟨hlt, hltr⟩, fun _ => rfl⟩⟩

/-- Witness for `c4_decision_boundaries` at a concrete thresholds object and
score. -/
theorem c4_decision_boundaries_witness :
    getDecision c4Thresholds 100 = "allow" :=
  ((c4_decision_boundaries.1 c4Thresholds 80 50 100 rfl rfl).1).mpr (by norm_num)

/-- C5: the `ScoringService` constructor installs `DEFAULT_THRESHOLDS`,
whose keys are the uppercase `ALLOW`/`REVIEW`/`DENY`, while `getDecision`
reads the lowercase `allow` and `review` keys; consequently every score —
including 100 — maps to `deny`, until `updateThresholds` is called with
lowercase keys, after which 100 maps to `allow`. -/
theorem c5_uppercase_default_thresholds :
    scoringInitThresholds = DEFAULT_THRESHOLDS ∧
    DEFAULT_THRESHOLDS.allow = none ∧ DEFAULT_THRESHOLDS.review = none ∧
    DEFAULT_THRESHOLDS.ALLOW = some 80 ∧
    (∀ s : Rat, getDecision DEFAULT_THRESHOLDS s = "deny") ∧
    getDecision (updateThresholds DEFAULT_THRESHOLDS c4Thresholds) 100 = "allow" := by
  refine ⟨rfl, rfl, rfl, rfl, fun s => rfl, by decide⟩

/-- The accumulation loop of `_calculateRuleScore` computes the sums of
`score` and `|weight|` over the non-error results. -/
theorem ruleScoreFold (rs : List RuleResult) : ∀ (a b : Rat),
    rs.foldl
      (fun (acc : Rat × Rat) result =>
        if errTruthy result.error then acc
        else (acc.1 + result.score, acc.2 + |result.weight|))
      (a, b)
      = (a + sumOkScore rs, b + sumAbsWeight rs) := by
  induction rs with
  | nil => intro a b; simp [sumOkScore, sumAbsWeight, okResults]
  | cons r rest ih =>
    intro a b
    by_cases h : errTruthy r.error
    · simp only [List.foldl_cons, h, if_pos, ih, sumOkScore, sumAbsWeight, okResults,
        List.filter_cons, Bool.not_eq_true']
      simp [h]
    · simp only [List.foldl_cons, h, if_neg, ih, sumOkScore, sumAbsWeight, okResults,
        List.filter_cons, Bool.not_eq_true']
      simp [h, add_assoc]

/-- C6: for every list of rule results, `_calculateRuleScore` returns the
neutral 50 when the list is empty or the non-error results carry zero total
absolute weight, and otherwise returns
`clamp_[0,100](((sum score / sum |weight|) + 1) * 50)` over the non-error
results. -/
theorem c6_rule_score_formula (rs : List RuleResult) :
    calculateRuleScore rs =
      if rs = [] ∨ sumAbsWeight rs = 0 then (50 : Rat)
      else clamp100 ((sumOkScore rs / sumAbsWeight rs + 1) * 50) := by
  by_cases hnil : rs = []
  · subst hnil
    simp [calculateRuleScore]
  · have hne : rs.isEmpty = false := by
      cases rs with
      | nil => exact absurd rfl hnil
      | cons a l => rfl
    have hfold := ruleScoreFold rs 0 0
    by_cases hw : sumAbsWeight rs = 0
    · simp only [calculateRuleScore, hne, Bool.false_eq_true, if_false, hfold, zero_add]
      simp [hw, hnil]
    · simp only [calculateRuleScore, hne, Bool.false_eq_true, if_false, hfold, zero_add]
      simp [hw, hnil]

/-- C7 counterexample: with the `behavioral` section entirely absent, each
clause of the claim fails at a concrete input.  (a) A rule whose condition is
the bare section name `behavioral` passes — the safe context replaces the
absent section with the truthy empty object `{}`.  (b) A rule whose condition
places the absent path `behavioral.totalEvents` under the comparison `< 5`
also passes: the guard rewrite yields `null`, and `null < 5` is `0 < 5`,
i.e. `true` — the immediately enclosing comparison is not false.  (c) A rule
whose condition is `!behavioral.metrics.clickFrequency || true` fails even
though computing the boolean combination with a false enclosing test would
give `true`: the absent intermediate segment raises a caught `TypeError`
that makes the *whole* condition false.  In each case no error is
reported. -/
theorem c7_counterexample :
    c7Data.behavioral = .undefined ∧
    (evalRule c7Data c7Rule).passed = true ∧
    (evalRule c7Data c7CmpRule).passed = true ∧
    (evalRule c7Data c7DeepRule).passed = false ∧
    (evalRule c7Data c7DeepRule).error = none :=
  ⟨rfl, rfl, rfl, rfl, rfl⟩

/-- C7 (amended): for every context and every dotted path rooted at an
identifier that resolves to an object (in particular the three sections,
which the safe context always binds to objects): when the path's second
segment is absent, the guard rewrite turns the path into `null`, so its
truthiness test is false, while an enclosing numeric comparison coerces that
`null` to `0` — `path < q` evaluates to `0 < q`, which is *true* for positive
`q`, not false; when an intermediate segment of a three-segment path is
absent, a `TypeError` is thrown and caught at the whole-condition level, so
the entire condition — including any surrounding boolean combination —
evaluates to false; a bare section name resolving to an object (as every
absent section does, being replaced by `{}`) tests true; and in every case
the rule's RuleResult reports no error. -/
theorem c7_absent_path_semantics :
    (∀ (c : SafeContext) (sec f : String) (fs : List (String × JsVal)),
      ctxGet c sec = .ok (.obj fs) → fs.lookup f = none →
      (evaluateCondition (.expr (.path2 sec f)) c = false ∧
       (∀ q : Rat,
         evaluateCondition (.expr (.lt (.path2 sec f) (.litNum q))) c
           = decide (0 < q)) ∧
       (∀ g : String, evaluateCondition (.expr (.path3 sec f g)) c = false) ∧
       (∀ (g : String) (e2 : Expr),
         evaluateCondition (.expr (.disj (.neg (.path3 sec f g)) e2)) c = false))) ∧
    (∀ (c : SafeContext) (sec : String) (fs : List (String × JsVal)),
      ctxGet c sec = .ok (.obj fs) →
      evaluateCondition (.expr (.path1 sec)) c = true) ∧
    (∀ (d : DataIn) (r : Rule), d.behavioral = .undefined → r.enabled = some true →
      r.condition = some (.expr (.path1 "behavioral")) →
      (evalRule d r).passed = true ∧ (evalRule d r).error = none) ∧
    (∀ (d : DataIn) (r : Rule), (evalRule d r).error = none) := by
  refine ⟨?_, ?_, ?_, fun d r => rfl⟩
  · intro c sec f fs hsec habs
    have hp2 : evalPath2 c sec f = .ok .null := by
      simp [evalPath2, hsec, propGet, habs, truthy]
    refine ⟨?_, ?_, ?_, ?_⟩
    · simp [evaluateCondition, evalExpr, hp2, truthy]
    · intro q
      simp [evaluateCondition, evalExpr, hp2, jsLtVal, toNumber, truthy]
    · intro g
      simp [evaluateCondition, evalExpr, hp2, propGet]
    · intro g e2
      simp [evaluateCondition, evalExpr, hp2, propGet]
  · intro c sec fs hsec
    simp [evaluateCondition, evalExpr, hsec, truthy]
  · intro d r hd hen hc
    constructor
    · simp [evalRule, hc, evaluateCondition, evalExpr, ctxGet, createSafeContext,
        hd, jsOr, truthy]
    · rfl

/-- Witness for `c7_absent_path_semantics` at concrete contexts, paths and
rules, exercising every hypothesis. -/
theorem c7_absent_path_semantics_witness :
    evaluateCondition (.expr (.path2 "behavioral" "totalEvents"))
      (createSafeContext c7Data) = false ∧
    evaluateCondition (.expr (.lt (.path2 "behavioral" "totalEvents") (.litNum 5)))
      (createSafeContext c7Data) = true ∧
    evaluateCondition (.expr (.path3 "behavioral" "metrics" "clickFrequency"))
      (createSafeContext c7Data) = false ∧
    evaluateCondition (.expr (.disj
      (.neg (.path3 "behavioral" "metrics" "clickFrequency")) (.litBool true)))
      (createSafeContext c7Data) = false ∧
    evaluateCondition (.expr (.path1 "behavioral")) (createSafeContext c7Data) = true ∧
    (evalRule c7Data c7Rule).passed = true ∧
    (evalRule c7Data c7Rule).error = none := by
  have h := c7_absent_path_semantics.1 (createSafeContext c7Data)
    "behavioral" "totalEvents" [] rfl rfl
  have h3 := c7_absent_path_semantics.1 (createSafeContext c7Data)
    "behavioral" "metrics" [] rfl rfl
  have hbare := c7_absent_path_semantics.2.1 (createSafeContext c7Data)
    "behavioral" [] rfl
  have hrule := c7_absent_path_semantics.2.2.1 c7Data c7Rule rfl rfl rfl
  exact ⟨h.1, (h.2.1 5).trans (by decide), h3.2.2.1 "clickFrequency",
    h3.2.2.2 "clickFrequency" (.litBool true), hbare, hrule.1, hrule.2⟩

/-- C8: an absent behavioral section scores exactly 30, an absent fingerprint
section scores exactly 0, and an absent facial section scores the neutral 50,
in the breakdown produced by `calculateScore` for any context. -/
theorem c8_absent_section_scores (now : Rat) (data : ScoreData)
    (rs : List RuleResult) :
    (data.behavioral = none → (calculateScore now data rs).breakdown.behavioral = 30) ∧
    (data.fingerprint = none → (calculateScore now data rs).breakdown.fingerprint = 0) ∧
    (data.facial = none → (calculateScore now data rs).breakdown.facial = 50) := by
  refine ⟨fun h => ?_, fun h => ?_, fun h => ?_⟩ <;>
    simp [calculateScore, h, calculateBehavioralScore, calculateFingerprintScore,
      calculateFacialScore]

/-- Witness for `c8_absent_section_scores` on the empty context. -/
theorem c8_absent_section_scores_witness :
    (calculateScore 0 {} []).breakdown.behavioral = 30 ∧
    (calculateScore 0 {} []).breakdown.fingerprint = 0 ∧
    (calculateScore 0 {} []).breakdown.facial = 50 :=
  ⟨(c8_absent_section_scores 0 {} []).1 rfl,
   (c8_absent_section_scores 0 {} []).2.1 rfl,
   (c8_absent_section_scores 0 {} []).2.2 rfl⟩

/-- C9 counterexample: the scoring output is not independent of when the
evaluation runs — the data-quality scorer reads `Date.now()`, so the same
context and rule results scored at time 0 and at time 400000 produce
different ScoreBreakdowns (request age crosses the staleness threshold). -/
theorem c9_counterexample :
    calculateScore 0 c9ScoreData [] ≠ calculateScore 400000 c9ScoreData [] := by
  have h1 : (calculateScore 0 c9ScoreData []).breakdown.dataQuality = 60 := by
    norm_num [calculateScore, calculateDataQualityScore, c9ScoreData, clamp100,
      min_def, max_def]
  have h2 : (calculateScore 400000 c9ScoreData []).breakdown.dataQuality = 30 := by
    norm_num [calculateScore, calculateDataQualityScore, c9ScoreData, clamp100,
      min_def, max_def]
  intro h
  rw [h] at h1
  have h3 : (60 : Rat) = 30 := h1.symm.trans h2
  norm_num at h3

/-- C9 (amended): evaluation is deterministic in its explicit inputs together
with the clock: two runs of the rule-evaluation pass on the same context and
rules always agree, and two runs of the score calculation agree whenever they
read the same `Date.now()` value; the output can depend on that clock value
only through the data-quality sub-score. -/
theorem c9_deterministic_given_clock (data : DataIn) (rules : List Rule)
    (sd : ScoreData) (rs : List RuleResult) (now1 now2 : Rat)
    (h : now1 = now2) :
    evaluateRules data rules = evaluateRules data rules ∧
    calculateScore now1 sd rs = calculateScore now2 sd rs := by
  subst h; exact ⟨rfl, rfl⟩

/-- Witness for `c9_deterministic_given_clock` at concrete inputs. -/
theorem c9_deterministic_given_clock_witness :
    evaluateRules c9DataIn defaultRules = evaluateRules c9DataIn defaultRules ∧
    calculateScore 0 c9ScoreData [] = calculateScore 0 c9ScoreData [] :=
  c9_deterministic_given_clock c9DataIn defaultRules c9ScoreData [] 0 0 rfl

/-- C10 counterexample: a rule with weight `0`, fresh id and otherwise valid
structure is rejected by the falsy check `!rule.weight` — `_validateRules`
raises for it, and `addTemporaryRule` raises `Invalid rule structure` even
though no rule with its id exists. -/
theorem c10_counterexample :
    validRule c10ZeroRule = false ∧
    addTemporaryRule engineInit c10ZeroRule = .error "Invalid rule structure" ∧
    (engineInit.rules.find? (fun r => r.id == c10ZeroRule.id)) = none :=
  ⟨rfl, rfl, rfl⟩

/-- C10 (amended): for every rule with non-empty id, name and condition,
action in the three-value enum, and a *non-zero* finite numeric weight
(negative weights included), structural validation accepts the rule and
`addTemporaryRule` fails exactly when the id already exists; a rule with
weight `0` is rejected by the falsy check `!rule.weight`. -/
theorem c10_validation_accepts_nonzero_weight (st : EngineState) (r : Rule)
    (w : Rat) (hid : r.id ≠ "") (hname : r.name ≠ "")
    (hcond : r.condition.isSome = true) (hw : r.weight = some w) (hw0 : w ≠ 0)
    (hact : r.action = "allow" ∨ r.action = "review" ∨ r.action = "deny") :
    validRule r = true ∧
    ((∃ st2, addTemporaryRule st r = .ok st2) ↔
      (st.rules.find? (fun q => q.id == r.id)) = none) := by
  have hact2 : r.action ≠ "" := by
    rcases hact with h | h | h <;> simp [h]
  have hft : ruleFieldsTruthy r = true := by
    simp [ruleFieldsTruthy, weightTruthy, hw, hcond, bne_iff_ne, hid, hname, hw0, hact2]
  constructor
  · rcases hact with h | h | h <;> simp [validRule, hft, hw, h]
  · constructor
    · rintro ⟨st2, hst⟩
      by_cases hf : (st.rules.find? (fun q => q.id == r.id)).isSome
      · simp [addTemporaryRule, hft, hf] at hst
      · exact Option.not_isSome_iff_eq_none.mp hf
    · intro hf
      refine ⟨{ st with rules := st.rules ++
        [{ r with enabled := some (r.enabled != some false), temporary := true }] }, ?_⟩
      simp [addTemporaryRule, hft, hf]

/-- Witness for `c10_validation_accepts_nonzero_weight` on a negative-weight
rule against the initial store. -/
theorem c10_validation_accepts_nonzero_weight_witness :
    validRule c10GoodRule = true ∧
    ((∃ st2, addTemporaryRule engineInit c10GoodRule = .ok st2) ↔
      (engineInit.rules.find? (fun q => q.id == c10GoodRule.id)) = none) :=
  c10_validation_accepts_nonzero_weight engineInit c10GoodRule (-7)
    (by decide) (by decide) rfl rfl (by decide) (Or.inr (Or.inl rfl))

end NexTrust
